import Mathlib

/-!
Verification of `taichi/backends/vulkan/vulkan_api.cpp`.

The C++ file drives the Vulkan API. We embed it shallowly: every `vk*`
driver call a routine makes is recorded, in order, in an explicit event
log, and the routines of the source file become pure functions from
their inputs to the log (plus their return value).  Vulkan bit-flag
constants keep their numeric values from `vulkan_core.h`; machine
integers are modelled as `Nat` (the only arithmetic performed on them
is bit masking, which is truncation-safe).
-/

namespace TaichiVulkan

/-! ## Vulkan constants (values from vulkan_core.h) -/

def VK_QUEUE_GRAPHICS_BIT : Nat := 1
def VK_QUEUE_COMPUTE_BIT : Nat := 2
def VK_QUEUE_TRANSFER_BIT : Nat := 4
def VK_QUEUE_SPARSE_BINDING_BIT : Nat := 8

def VK_ACCESS_SHADER_READ_BIT : Nat := 0x20
def VK_ACCESS_SHADER_WRITE_BIT : Nat := 0x40
def VK_ACCESS_TRANSFER_READ_BIT : Nat := 0x800
def VK_ACCESS_TRANSFER_WRITE_BIT : Nat := 0x1000

def VK_PIPELINE_STAGE_COMPUTE_SHADER_BIT : Nat := 0x800
def VK_PIPELINE_STAGE_TRANSFER_BIT : Nat := 0x1000

def VK_COMMAND_BUFFER_USAGE_SIMULTANEOUS_USE_BIT : Nat := 4

def VK_PIPELINE_BIND_POINT_COMPUTE : Nat := 1

def VK_DESCRIPTOR_TYPE_STORAGE_BUFFER : Nat := 7

def VK_WHOLE_SIZE : Nat := 0xFFFFFFFFFFFFFFFF

def VK_DEBUG_UTILS_MESSAGE_SEVERITY_VERBOSE_BIT_EXT : Nat := 0x1
def VK_DEBUG_UTILS_MESSAGE_SEVERITY_INFO_BIT_EXT : Nat := 0x10
def VK_DEBUG_UTILS_MESSAGE_SEVERITY_WARNING_BIT_EXT : Nat := 0x100
def VK_DEBUG_UTILS_MESSAGE_SEVERITY_ERROR_BIT_EXT : Nat := 0x1000

/-! ## Driver-call records

A `VkMemoryBarrier` as filled in by the source (only the two access
masks vary; `sType`/`pNext` are fixed boilerplate). -/

structure VkMemoryBarrier where
  srcAccessMask : Nat
  dstAccessMask : Nat
deriving Repr, DecidableEq

/-- A `VkBufferCopy` region as filled in by `CopyBufferCommandBuilder::copy`. -/
structure VkBufferCopy where
  srcOffset : Nat
  dstOffset : Nat
  size : Nat
deriving Repr, DecidableEq

/-- One Vulkan driver call, as issued by the command-builder code.  Buffer
handles are opaque `Nat`s; `none` stands for `VK_NULL_HANDLE`. -/
inductive VkCall where
  | allocateCommandBuffers (commandBufferCount : Nat)
  | beginCommandBuffer (buf : Nat) (flags : Nat)
  | endCommandBuffer (buf : Option Nat)
  | cmdBindPipeline (buf : Nat) (bindPoint : Nat) (pipeline : Nat)
  | cmdBindDescriptorSets (buf : Nat) (bindPoint : Nat) (layout : Nat)
      (firstSet : Nat) (descriptorSetCount : Nat) (sets : List Nat)
      (dynamicOffsetCount : Nat)
  | cmdDispatch (buf : Nat) (groupCountX : Nat) (groupCountY : Nat)
      (groupCountZ : Nat)
  | cmdPipelineBarrier (buf : Nat) (srcStageMask : Nat) (dstStageMask : Nat)
      (memoryBarrierCount : Nat) (barriers : List VkMemoryBarrier)
      (bufferMemoryBarrierCount : Nat) (imageMemoryBarrierCount : Nat)
  | cmdCopyBuffer (buf : Nat) (srcBuffer : Nat) (dstBuffer : Nat)
      (regionCount : Nat) (regions : List VkBufferCopy)
deriving Repr, DecidableEq

/-- Is this call a `vkEndCommandBuffer`? -/
def VkCall.isEnd : VkCall → Bool
  | .endCommandBuffer _ => true
  | _ => false

/-- Is this call a `vkCmdPipelineBarrier`? -/
def VkCall.isBarrier : VkCall → Bool
  | .cmdPipelineBarrier _ _ _ _ _ _ _ => true
  | _ => false

/-! ## VulkanCommandBuilder (vulkan_api.cpp lines 487-519)

The builder's observable state is its `command_buffer_` member (`none`
models `VK_NULL_HANDLE`) together with the log of driver calls it has
issued so far, oldest first. -/

structure VulkanCommandBuilder where
  command_buffer : Option Nat
  log : List VkCall
deriving Repr, DecidableEq

/-- Constructor `VulkanCommandBuilder::VulkanCommandBuilder(device)`:
allocates one command buffer (`alloc_info.commandBufferCount = 1`) from
the device pool, receiving fresh handle `h`, then begins recording it
with `begin_info.flags = VK_COMMAND_BUFFER_USAGE_SIMULTANEOUS_USE_BIT`. -/
def VulkanCommandBuilder.new (h : Nat) : VulkanCommandBuilder :=
  { command_buffer := some h
    log := [VkCall.allocateCommandBuffers 1,
            VkCall.beginCommandBuffer h VK_COMMAND_BUFFER_USAGE_SIMULTANEOUS_USE_BIT] }

/-- `VulkanCommandBuilder::build()`: calls `vkEndCommandBuffer(command_buffer_)`,
saves the handle, nulls the member, and returns the saved handle. -/
def VulkanCommandBuilder.build (b : VulkanCommandBuilder) :
    Option Nat × VulkanCommandBuilder :=
  (b.command_buffer,
   { command_buffer := none
     log := b.log ++ [VkCall.endCommandBuffer b.command_buffer] })

/-- Destructor `VulkanCommandBuilder::~VulkanCommandBuilder()`: calls
`build()` if and only if `command_buffer_ != VK_NULL_HANDLE`. -/
def VulkanCommandBuilder.destroy (b : VulkanCommandBuilder) :
    VulkanCommandBuilder :=
  if b.command_buffer ≠ none then (b.build).2 else b

/-- Number of `vkEndCommandBuffer` calls in a log. -/
def endCount (log : List VkCall) : Nat :=
  (log.filter VkCall.isEnd).length

/-! ## VulkanComputeCommandBuilder::append (lines 521-552) -/

/-- The handles of a `VulkanPipeline` that `append` reads. -/
structure PipelineHandles where
  pipeline : Nat
  pipeline_layout : Nat
  descriptor_set : Nat
deriving Repr, DecidableEq

/-- The driver calls `VulkanComputeCommandBuilder::append(pipeline,
group_count_x)` issues, in order, against command buffer `buf`:
bind pipeline, bind the single descriptor set, dispatch with Y = Z = 1,
then the conservative compute→{compute, transfer} memory barrier. -/
def appendCalls (buf : Nat) (p : PipelineHandles) (group_count_x : Nat) :
    List VkCall :=
  [VkCall.cmdBindPipeline buf VK_PIPELINE_BIND_POINT_COMPUTE p.pipeline,
   VkCall.cmdBindDescriptorSets buf VK_PIPELINE_BIND_POINT_COMPUTE
     p.pipeline_layout 0 1 [p.descriptor_set] 0,
   VkCall.cmdDispatch buf group_count_x 1 1,
   VkCall.cmdPipelineBarrier buf
     VK_PIPELINE_STAGE_COMPUTE_SHADER_BIT
     (VK_PIPELINE_STAGE_TRANSFER_BIT ||| VK_PIPELINE_STAGE_COMPUTE_SHADER_BIT)
     1
     [{ srcAccessMask := VK_ACCESS_SHADER_WRITE_BIT ||| VK_ACCESS_SHADER_READ_BIT
        dstAccessMask := VK_ACCESS_TRANSFER_READ_BIT ||| VK_ACCESS_TRANSFER_WRITE_BIT |||
                         VK_ACCESS_SHADER_READ_BIT ||| VK_ACCESS_SHADER_WRITE_BIT }]
     0 0]

/-- `VulkanComputeCommandBuilder::append`: the member `command_buffer_` is
the target of every `vkCmd*` call.  (In the C++ the handle is non-null
while recording; `getD 0` is never reached in a reachable state.) -/
def VulkanComputeCommandBuilder.append (b : VulkanCommandBuilder)
    (p : PipelineHandles) (group_count_x : Nat) : VulkanCommandBuilder :=
  { b with log := b.log ++ appendCalls (b.command_buffer.getD 0) p group_count_x }

/-! ## CopyBufferCommandBuilder::copy (lines 556-586) and
record_copy_buffer_command (lines 590-599) -/

/-- Direction of a buffer copy.  Modelled from the spec: the enum
`VulkanCopyBufferDirection` is declared in `vulkan_api.h`, which is not
part of the sources; the spec names the two directions host-to-device
and device-to-host. -/
inductive VulkanCopyBufferDirection where
  | H2D
  | D2H
deriving Repr, DecidableEq

/-- The driver calls `CopyBufferCommandBuilder::copy` issues against
command buffer `buf`: one whole-buffer copy (both offsets zero), then —
only for host-to-device copies — one transfer→{shader-read,
transfer-read} memory barrier. -/
def copyCalls (buf : Nat) (src_buffer dst_buffer size : Nat)
    (direction : VulkanCopyBufferDirection) : List VkCall :=
  VkCall.cmdCopyBuffer buf src_buffer dst_buffer 1
      [{ srcOffset := 0, dstOffset := 0, size := size }] ::
    (if direction = VulkanCopyBufferDirection.H2D then
      [VkCall.cmdPipelineBarrier buf
        VK_PIPELINE_STAGE_TRANSFER_BIT
        (VK_PIPELINE_STAGE_COMPUTE_SHADER_BIT ||| VK_PIPELINE_STAGE_TRANSFER_BIT)
        1
        [{ srcAccessMask := VK_ACCESS_TRANSFER_WRITE_BIT
           dstAccessMask := VK_ACCESS_SHADER_READ_BIT ||| VK_ACCESS_TRANSFER_READ_BIT }]
        0 0]
    else [])

/-- `CopyBufferCommandBuilder::copy` as a state transformer on the
builder. -/
def CopyBufferCommandBuilder.copy (b : VulkanCommandBuilder)
    (src_buffer dst_buffer size : Nat)
    (direction : VulkanCopyBufferDirection) : VulkanCommandBuilder :=
  { b with
    log := b.log ++ copyCalls (b.command_buffer.getD 0) src_buffer dst_buffer
      size direction }

/-- `record_copy_buffer_command(device, src, dst, size, direction)`:
constructs a `CopyBufferCommandBuilder` (handle `h` fresh from the
pool), records the copy, finalizes with `build()`, and lets the
destructor run at scope exit.  Returns the finalized handle and the
full driver-call log of the builder lifetime. -/
def record_copy_buffer_command (h : Nat) (src_buffer dst_buffer size : Nat)
    (direction : VulkanCopyBufferDirection) : Option Nat × List VkCall :=
  let cb := VulkanCommandBuilder.new h
  let cb := CopyBufferCommandBuilder.copy cb src_buffer dst_buffer size direction
  let res := cb.build
  let final := res.2.destroy
  (res.1, final.log)

/-! ## Builder lifecycles

Everything a caller can do to a live builder between construction and
finalization: the two `append`-style recording operations. -/

inductive BuilderStep where
  | dispatch (p : PipelineHandles) (group_count_x : Nat)
  | copy (src_buffer dst_buffer size : Nat) (direction : VulkanCopyBufferDirection)
deriving Repr, DecidableEq

/-- Run a sequence of recording operations on a builder. -/
def runSteps (b : VulkanCommandBuilder) : List BuilderStep → VulkanCommandBuilder
  | [] => b
  | BuilderStep.dispatch p x :: rest =>
      runSteps (VulkanComputeCommandBuilder.append b p x) rest
  | BuilderStep.copy s d sz dir :: rest =>
      runSteps (CopyBufferCommandBuilder.copy b s d sz dir) rest

/-! ## find_queue_families (lines 101-141) and device selection (239-257)

A queue family is modelled by its `queueFlags` word.  The source masks
out the transfer and sparse-binding bits, then makes two passes with an
early return as soon as `indices.is_complete()` (i.e. as soon as
`compute_family` holds a value): the first pass looks for a family whose
masked flags have the compute bit and not the graphics bit; the second
accepts any family with the compute bit.  Since the function returns
immediately after the first assignment, each pass returns the first
matching index. -/

def kFlagMask : Nat := 0xFFFFFFF3

/-- Does a queue-family flag word have the compute bit? -/
def supportsCompute (f : Nat) : Bool :=
  f &&& VK_QUEUE_COMPUTE_BIT != 0

/-- Does a queue-family flag word have the graphics bit? -/
def supportsGraphics (f : Nat) : Bool :=
  f &&& VK_QUEUE_GRAPHICS_BIT != 0

/-- Compute-capable and not graphics-capable. -/
def computeOnly (f : Nat) : Bool :=
  supportsCompute f && !supportsGraphics f

/-- First pass of `find_queue_families`: first index whose masked flags
support compute but not graphics. -/
def findComputeNoGraphics : List Nat → Nat → Option Nat
  | [], _ => none
  | f :: rest, i =>
    let masked := kFlagMask &&& f
    if (masked &&& VK_QUEUE_COMPUTE_BIT != 0) && (masked &&& VK_QUEUE_GRAPHICS_BIT == 0)
    then some i
    else findComputeNoGraphics rest (i + 1)

/-- Second pass of `find_queue_families`: first index whose masked flags
support compute at all. -/
def findComputeAny : List Nat → Nat → Option Nat
  | [], _ => none
  | f :: rest, i =>
    let masked := kFlagMask &&& f
    if masked &&& VK_QUEUE_COMPUTE_BIT != 0
    then some i
    else findComputeAny rest (i + 1)

/-- `find_queue_families(device)`, with the device represented by its
list of queue-family flag words.  Returns `indices.compute_family`. -/
def find_queue_families (queue_families : List Nat) : Option Nat :=
  match findComputeNoGraphics queue_families 0 with
  | some i => some i
  | none => findComputeAny queue_families 0

/-- `VulkanQueueFamilyIndices::is_complete()` on the result. -/
def is_complete (indices : Option Nat) : Bool :=
  indices.isSome

/-- `is_device_suitable(device)` (lines 139-141). -/
def is_device_suitable (queue_families : List Nat) : Bool :=
  is_complete (find_queue_families queue_families)

/-- `ManagedVulkanDevice::pick_physical_device` (lines 239-257), with
each physical device represented by its queue-family flag list.  The
first `TI_ASSERT_INFO` fails when no device is enumerated; the loop
takes the first suitable device and breaks; the second `TI_ASSERT_INFO`
fails when none was suitable.  `TI_ASSERT_INFO` failure is modelled as
`Except.error` with the assertion message.  On success returns the
index of the chosen device. -/
def pick_physical_device (devices : List (List Nat)) : Except String Nat :=
  if devices.length = 0 then
    Except.error "failed to find GPUs with Vulkan support"
  else
    match devices.findIdx? (fun d => is_device_suitable d) with
    | some i => Except.ok i
    | none => Except.error "failed to find a suitable GPU"

/-! ## ManagedVulkanDevice constructor (lines 163-175)

The constructor runs `create_instance`, `setup_debug_messenger`,
`pick_physical_device`, `create_logical_device`, `create_command_pool`
in that order; a `TI_ASSERT_INFO` failure in `pick_physical_device`
aborts the sequence before `create_logical_device` runs.  We record the
coarse construction events in order. -/

inductive InitEvent where
  | instanceCreated
  | debugMessengerSet
  | logicalDeviceCreated (deviceIdx : Nat)
  | commandPoolCreated
deriving Repr, DecidableEq

/-- Is this event a logical-device creation? -/
def InitEvent.isLogicalDeviceCreated : InitEvent → Bool
  | .logicalDeviceCreated _ => true
  | _ => false

/-- `ManagedVulkanDevice::ManagedVulkanDevice`: the event trace of
construction, and the error (if any) that aborted it. -/
def managed_vulkan_device_init (devices : List (List Nat)) :
    List InitEvent × Option String :=
  let log0 := [InitEvent.instanceCreated, InitEvent.debugMessengerSet]
  match pick_physical_device devices with
  | Except.error e => (log0, some e)
  | Except.ok i =>
      (log0 ++ [InitEvent.logicalDeviceCreated i, InitEvent.commandPoolCreated],
       none)

/-! ## ManagedVulkanDevice::create_logical_device (lines 259-330)

The extension-detection loop walks the enumerated device-extension
names in order and pushes onto `enabled_extensions` exactly those that
match the if/else chain; `VK_KHR_variable_pointers` additionally sets
`has_spv_variable_pointer`.  A warning is emitted when that flag stays
false; device creation proceeds either way. -/

def VK_KHR_SURFACE_EXTENSION_NAME : String := "VK_KHR_surface"
def VK_KHR_SWAPCHAIN_EXTENSION_NAME : String := "VK_KHR_swapchain"
def VK_EXT_SHADER_ATOMIC_FLOAT_EXTENSION_NAME : String := "VK_EXT_shader_atomic_float"
def VK_KHR_SHADER_ATOMIC_INT64_EXTENSION_NAME : String := "VK_KHR_shader_atomic_int64"
def VK_KHR_SYNCHRONIZATION_2_EXTENSION_NAME : String := "VK_KHR_synchronization2"
def VK_NV_EXTERNAL_MEMORY_CAPABILITIES_EXTENSION_NAME : String :=
  "VK_NV_external_memory_capabilities"
def VK_KHR_VARIABLE_POINTERS_EXTENSION_NAME : String := "VK_KHR_variable_pointers"

/-- One iteration of the detection loop: does `name` match any branch
that pushes onto `enabled_extensions`? -/
def extensionEnabled (name : String) : Bool :=
  name = "VK_KHR_portability_subset" ∨
  name = VK_KHR_SURFACE_EXTENSION_NAME ∨
  name = VK_KHR_SWAPCHAIN_EXTENSION_NAME ∨
  name = VK_EXT_SHADER_ATOMIC_FLOAT_EXTENSION_NAME ∨
  name = VK_KHR_SHADER_ATOMIC_INT64_EXTENSION_NAME ∨
  name = VK_KHR_SYNCHRONIZATION_2_EXTENSION_NAME ∨
  name = VK_NV_EXTERNAL_MEMORY_CAPABILITIES_EXTENSION_NAME ∨
  name = VK_KHR_VARIABLE_POINTERS_EXTENSION_NAME

/-- Result of `create_logical_device` relevant to extension handling:
which extensions were enabled, whether the variable-pointer warning was
emitted, and that device creation was reached (the function has no
early-out between detection and `vkCreateDevice`). -/
structure LogicalDeviceResult where
  enabled_extensions : List String
  warned_no_variable_pointer : Bool
  device_created : Bool
deriving Repr, DecidableEq

/-- The extension-detection part of `create_logical_device`, as a fold
over the enumerated extension names in order. -/
def create_logical_device (extension_properties : List String) :
    LogicalDeviceResult :=
  let enabled := extension_properties.filter extensionEnabled
  let has_spv_variable_pointer :=
    extension_properties.contains VK_KHR_VARIABLE_POINTERS_EXTENSION_NAME
  { enabled_extensions := enabled
    warned_no_variable_pointer := !has_spv_variable_pointer
    device_created := true }

/-- Modelled from the spec: the allow-list the spec states for optional
device extensions — "portability-subset compatibility, surface/swapchain
interop, atomic-float/int64 shader capability, synchronization
extensions, variable-pointer support". -/
def specAllowList : List String :=
  ["VK_KHR_portability_subset",
   VK_KHR_SURFACE_EXTENSION_NAME,
   VK_KHR_SWAPCHAIN_EXTENSION_NAME,
   VK_EXT_SHADER_ATOMIC_FLOAT_EXTENSION_NAME,
   VK_KHR_SHADER_ATOMIC_INT64_EXTENSION_NAME,
   VK_KHR_SYNCHRONIZATION_2_EXTENSION_NAME,
   VK_KHR_VARIABLE_POINTERS_EXTENSION_NAME]

/-- The allow-list actually hard-coded in the source: the spec's list
plus `VK_NV_external_memory_capabilities`. -/
def codeAllowList : List String :=
  specAllowList ++ [VK_NV_EXTERNAL_MEMORY_CAPABILITIES_EXTENSION_NAME]

/-! ## VulkanPipeline descriptor pool and sets (lines 419-485) -/

/-- A `BufferBinding` from the pipeline parameters: declared slot number
and opaque buffer handle. -/
structure BufferBinding where
  binding : Nat
  buffer : Nat
deriving Repr, DecidableEq

structure VkDescriptorPoolSize where
  type : Nat
  descriptorCount : Nat
deriving Repr, DecidableEq

structure VkDescriptorPoolCreateInfo where
  maxSets : Nat
  poolSizes : List VkDescriptorPoolSize
deriving Repr, DecidableEq

/-- `VulkanPipeline::create_descriptor_pool`: the pool-create info the
source fills in (`poolSizeCount = 1`, storage-buffer type, count =
number of buffer bindings, `maxSets = 1`). -/
def create_descriptor_pool (buffer_bindings : List BufferBinding) :
    VkDescriptorPoolCreateInfo :=
  { maxSets := 1
    poolSizes := [{ type := VK_DESCRIPTOR_TYPE_STORAGE_BUFFER
                    descriptorCount := buffer_bindings.length }] }

structure VkDescriptorBufferInfo where
  buffer : Nat
  offset : Nat
  range : Nat
deriving Repr, DecidableEq

structure VkWriteDescriptorSet where
  dstSet : Nat
  dstBinding : Nat
  dstArrayElement : Nat
  descriptorCount : Nat
  descriptorType : Nat
  bufferInfo : VkDescriptorBufferInfo
deriving Repr, DecidableEq

/-- Result of `VulkanPipeline::create_descriptor_sets`: how many sets
the `vkAllocateDescriptorSets` call requests, and the
`vkUpdateDescriptorSets` write list. -/
structure DescriptorSetsResult where
  descriptorSetCount : Nat
  writes : List VkWriteDescriptorSet
deriving Repr, DecidableEq

/-- `VulkanPipeline::create_descriptor_sets`: allocates one set
(`alloc_info.descriptorSetCount = 1`; handle `set_handle`), builds one
`VkDescriptorBufferInfo` per binding with offset 0 and `VK_WHOLE_SIZE`
range, then one write per binding targeting `bb.binding`.  The second
source loop pairs `buffer_binds[i]` with `descriptor_buffer_infos[i]`,
which was built from the same `buffer_binds[i]`, so both loops fuse
into one map. -/
def create_descriptor_sets (set_handle : Nat)
    (buffer_bindings : List BufferBinding) : DescriptorSetsResult :=
  { descriptorSetCount := 1
    writes := buffer_bindings.map (fun bb =>
      { dstSet := set_handle
        dstBinding := bb.binding
        dstArrayElement := 0
        descriptorCount := 1
        descriptorType := VK_DESCRIPTOR_TYPE_STORAGE_BUFFER
        bufferInfo := { buffer := bb.buffer, offset := 0, range := VK_WHOLE_SIZE } }) }

/-! ## vk_debug_callback (lines 42-51) -/

/-- Result of the debug callback: whether `TI_WARN` logged the message,
and the `VkBool32` returned to the API (`false` models `VK_FALSE`). -/
structure DebugCallbackResult where
  logged : Bool
  returnValue : Bool
deriving Repr, DecidableEq

/-- `vk_debug_callback(message_severity, message_type, callback_data,
user_data)`: logs when `message_severity >
VK_DEBUG_UTILS_MESSAGE_SEVERITY_INFO_BIT_EXT` and always returns
`VK_FALSE`. -/
def vk_debug_callback (message_severity : Nat) (_message_type : Nat) :
    DebugCallbackResult :=
  { logged := decide (message_severity > VK_DEBUG_UTILS_MESSAGE_SEVERITY_INFO_BIT_EXT)
    returnValue := false }

/-- The four severity values the Vulkan API delivers to the callback. -/
def validSeverities : List Nat :=
  [VK_DEBUG_UTILS_MESSAGE_SEVERITY_VERBOSE_BIT_EXT,
   VK_DEBUG_UTILS_MESSAGE_SEVERITY_INFO_BIT_EXT,
   VK_DEBUG_UTILS_MESSAGE_SEVERITY_WARNING_BIT_EXT,
   VK_DEBUG_UTILS_MESSAGE_SEVERITY_ERROR_BIT_EXT]

/-! ## VulkanStream::launch (lines 604-614) -/

/-- A `VkSubmitInfo` as filled in by `launch`: zero-initialized, so the
semaphore lists stay empty and only the command-buffer list is set. -/
structure VkSubmitInfo where
  waitSemaphores : List Nat
  commandBuffers : List Nat
  signalSemaphores : List Nat
deriving Repr, DecidableEq

/-- Driver calls a `VulkanStream` can make on its queue.  `fence = none`
models `VK_NULL_HANDLE`. -/
inductive QueueCall where
  | queueSubmit (submitCount : Nat) (infos : List VkSubmitInfo) (fence : Option Nat)
  | queueWaitIdle
deriving Repr, DecidableEq

/-- Is this call a blocking wait (`vkQueueWaitIdle`)? -/
def QueueCall.isBlocking : QueueCall → Bool
  | .queueWaitIdle => true
  | _ => false

/-- Is this call a `vkQueueSubmit`? -/
def QueueCall.isSubmit : QueueCall → Bool
  | .queueSubmit _ _ _ => true
  | _ => false

/-- `VulkanStream::launch(command)`: the queue calls it makes. -/
def VulkanStream.launch (command : Nat) : List QueueCall :=
  [QueueCall.queueSubmit 1
    [{ waitSemaphores := [], commandBuffers := [command], signalSemaphores := [] }]
    none]

/-- `VulkanStream::synchronize()`: the queue calls it makes. -/
def VulkanStream.synchronize : List QueueCall :=
  [QueueCall.queueWaitIdle]

/-! ## Helper lemmas about builder logs -/

theorem endCount_append (l1 l2 : List VkCall) :
    endCount (l1 ++ l2) = endCount l1 + endCount l2 := by
  simp [endCount, List.filter_append]

theorem endCount_appendCalls (buf : Nat) (p : PipelineHandles) (x : Nat) :
    endCount (appendCalls buf p x) = 0 := by
  simp [endCount, appendCalls, List.filter, VkCall.isEnd]

theorem endCount_copyCalls (buf s d sz : Nat) (dir : VulkanCopyBufferDirection) :
    endCount (copyCalls buf s d sz dir) = 0 := by
  cases dir <;> simp [endCount, copyCalls, List.filter, VkCall.isEnd]

theorem runSteps_command_buffer (steps : List BuilderStep)
    (b : VulkanCommandBuilder) :
    (runSteps b steps).command_buffer = b.command_buffer := by
  induction steps generalizing b with
  | nil => rfl
  | cons s rest ih =>
    cases s <;>
      simp [runSteps, VulkanComputeCommandBuilder.append,
        CopyBufferCommandBuilder.copy, ih]

theorem runSteps_endCount (steps : List BuilderStep) (b : VulkanCommandBuilder) :
    endCount (runSteps b steps).log = endCount b.log := by
  induction steps generalizing b with
  | nil => rfl
  | cons s rest ih =>
    cases s <;>
      simp [runSteps, VulkanComputeCommandBuilder.append,
        CopyBufferCommandBuilder.copy, ih, endCount_append,
        endCount_appendCalls, endCount_copyCalls]

theorem destroy_of_some (b : VulkanCommandBuilder) (h : Nat)
    (hb : b.command_buffer = some h) : b.destroy = (b.build).2 := by
  simp [VulkanCommandBuilder.destroy, hb]

theorem destroy_of_none (b : VulkanCommandBuilder)
    (hb : b.command_buffer = none) : b.destroy = b := by
  simp [VulkanCommandBuilder.destroy, hb]

/-! ## Claims -/

/-- C2: a command builder is Recording immediately on construction — it
allocates exactly one command buffer from the pool and begins recording
with the simultaneous-use flag — and destroying a builder that is still
Recording (after any sequence of recording operations) ends the
recording, so every builder lifetime that skips `build()` still issues
exactly one `vkEndCommandBuffer`. -/
theorem claim_C2 (h : Nat) (steps : List BuilderStep) :
    (VulkanCommandBuilder.new h).command_buffer = some h ∧
    (VulkanCommandBuilder.new h).log =
      [VkCall.allocateCommandBuffers 1,
       VkCall.beginCommandBuffer h VK_COMMAND_BUFFER_USAGE_SIMULTANEOUS_USE_BIT] ∧
    endCount (runSteps (VulkanCommandBuilder.new h) steps).log = 0 ∧
    endCount ((runSteps (VulkanCommandBuilder.new h) steps).destroy).log = 1 := by
  refine ⟨rfl, rfl, ?_, ?_⟩
  · rw [runSteps_endCount]
    rfl
  · rw [destroy_of_some _ h (by rw [runSteps_command_buffer]; rfl)]
    simp only [VulkanCommandBuilder.build, endCount_append, runSteps_endCount]
    rfl

/-- C10: after `build()` the stored handle is null and the destructor
does nothing further; hence every builder lifetime — explicit `build()`
followed by destruction, or destruction alone — issues exactly one
`vkEndCommandBuffer`. -/
theorem claim_C10 (h : Nat) (steps : List BuilderStep) :
    (((runSteps (VulkanCommandBuilder.new h) steps).build).2).command_buffer = none ∧
    (((runSteps (VulkanCommandBuilder.new h) steps).build).2).destroy =
      ((runSteps (VulkanCommandBuilder.new h) steps).build).2 ∧
    endCount ((((runSteps (VulkanCommandBuilder.new h) steps).build).2).destroy).log = 1 ∧
    endCount (((runSteps (VulkanCommandBuilder.new h) steps).destroy)).log = 1 := by
  refine ⟨rfl, destroy_of_none _ rfl, ?_, ?_⟩
  · rw [destroy_of_none _ rfl]
    simp only [VulkanCommandBuilder.build, endCount_append, runSteps_endCount]
    rfl
  · rw [destroy_of_some _ h (by rw [runSteps_command_buffer]; rfl)]
    simp only [VulkanCommandBuilder.build, endCount_append, runSteps_endCount]
    rfl

/-- C3: every recorded buffer copy uses source offset 0 and destination
offset 0; the copy is followed by exactly one memory barrier
(transfer-write → shader-read + transfer-read) precisely when the
direction is host-to-device, and by no barrier for device-to-host. -/
theorem claim_C3 (h src dst size : Nat) (dir : VulkanCopyBufferDirection) :
    (record_copy_buffer_command h src dst size dir).1 = some h ∧
    (record_copy_buffer_command h src dst size dir).2 =
      [VkCall.allocateCommandBuffers 1,
       VkCall.beginCommandBuffer h VK_COMMAND_BUFFER_USAGE_SIMULTANEOUS_USE_BIT,
       VkCall.cmdCopyBuffer h src dst 1 [{ srcOffset := 0, dstOffset := 0, size := size }]] ++
      (if dir = VulkanCopyBufferDirection.H2D then
        [VkCall.cmdPipelineBarrier h VK_PIPELINE_STAGE_TRANSFER_BIT
          (VK_PIPELINE_STAGE_COMPUTE_SHADER_BIT ||| VK_PIPELINE_STAGE_TRANSFER_BIT) 1
          [{ srcAccessMask := VK_ACCESS_TRANSFER_WRITE_BIT
             dstAccessMask := VK_ACCESS_SHADER_READ_BIT ||| VK_ACCESS_TRANSFER_READ_BIT }] 0 0]
      else []) ++
      [VkCall.endCommandBuffer (some h)] ∧
    (((record_copy_buffer_command h src dst size dir).2).filter VkCall.isBarrier).length =
      (if dir = VulkanCopyBufferDirection.H2D then 1 else 0) := by
  cases dir <;>
    refine ⟨rfl, ?_, ?_⟩ <;>
    simp [record_copy_buffer_command, VulkanCommandBuilder.new,
      CopyBufferCommandBuilder.copy, copyCalls, VulkanCommandBuilder.build,
      VulkanCommandBuilder.destroy, List.filter, VkCall.isBarrier]

/-- C4: every dispatch appended by the compute command builder records,
in order: bind the pipeline, bind its single descriptor set, a dispatch
with Y and Z group counts both 1, then exactly one memory barrier with
source access shader-read|shader-write, destination access
shader-read|shader-write|transfer-read|transfer-write, from the compute
stage to the compute and transfer stages. -/
theorem claim_C4 (b : VulkanCommandBuilder) (p : PipelineHandles) (x : Nat) :
    (VulkanComputeCommandBuilder.append b p x).log =
      b.log ++
      [VkCall.cmdBindPipeline (b.command_buffer.getD 0)
         VK_PIPELINE_BIND_POINT_COMPUTE p.pipeline,
       VkCall.cmdBindDescriptorSets (b.command_buffer.getD 0)
         VK_PIPELINE_BIND_POINT_COMPUTE p.pipeline_layout 0 1 [p.descriptor_set] 0,
       VkCall.cmdDispatch (b.command_buffer.getD 0) x 1 1,
       VkCall.cmdPipelineBarrier (b.command_buffer.getD 0)
         VK_PIPELINE_STAGE_COMPUTE_SHADER_BIT
         (VK_PIPELINE_STAGE_TRANSFER_BIT ||| VK_PIPELINE_STAGE_COMPUTE_SHADER_BIT) 1
         [{ srcAccessMask := VK_ACCESS_SHADER_WRITE_BIT ||| VK_ACCESS_SHADER_READ_BIT
            dstAccessMask := VK_ACCESS_TRANSFER_READ_BIT ||| VK_ACCESS_TRANSFER_WRITE_BIT |||
                             VK_ACCESS_SHADER_READ_BIT ||| VK_ACCESS_SHADER_WRITE_BIT }] 0 0] ∧
    ((appendCalls (b.command_buffer.getD 0) p x).filter VkCall.isBarrier).length = 1 ∧
    (VulkanComputeCommandBuilder.append b p x).command_buffer = b.command_buffer := by
  refine ⟨rfl, ?_, rfl⟩
  simp [appendCalls, List.filter, VkCall.isBarrier]

/-- C9: `launch` makes exactly one queue submission, carrying exactly
one command buffer, with no fence and empty wait/signal semaphore
lists, and makes no blocking call. -/
theorem claim_C9 (command : Nat) :
    VulkanStream.launch command =
      [QueueCall.queueSubmit 1
        [{ waitSemaphores := [], commandBuffers := [command],
           signalSemaphores := [] }] none] ∧
    ((VulkanStream.launch command).filter QueueCall.isSubmit).length = 1 ∧
    ((VulkanStream.launch command).all fun q => !q.isBlocking) = true := by
  exact ⟨rfl, rfl, rfl⟩

/-! ## Mask elimination: the flag mask keeps the compute and graphics bits -/

theorem land_mask_bit (m v f : Nat) (hm : m &&& v = v) :
    (m &&& f) &&& v = f &&& v := by
  rw [Nat.land_comm m f, Nat.land_assoc, hm]

theorem masked_compute (f : Nat) :
    (kFlagMask &&& f) &&& VK_QUEUE_COMPUTE_BIT = f &&& VK_QUEUE_COMPUTE_BIT :=
  land_mask_bit kFlagMask VK_QUEUE_COMPUTE_BIT f (by decide)

theorem masked_graphics (f : Nat) :
    (kFlagMask &&& f) &&& VK_QUEUE_GRAPHICS_BIT = f &&& VK_QUEUE_GRAPHICS_BIT :=
  land_mask_bit kFlagMask VK_QUEUE_GRAPHICS_BIT f (by decide)

theorem noGraphicsCond_eq (f : Nat) :
    (((kFlagMask &&& f) &&& VK_QUEUE_COMPUTE_BIT != 0) &&
     ((kFlagMask &&& f) &&& VK_QUEUE_GRAPHICS_BIT == 0)) = computeOnly f := by
  rw [masked_compute, masked_graphics]
  simp [computeOnly, supportsCompute, supportsGraphics, bne]

theorem anyCond_eq (f : Nat) :
    ((kFlagMask &&& f) &&& VK_QUEUE_COMPUTE_BIT != 0) = supportsCompute f := by
  rw [masked_compute]; rfl

theorem supportsCompute_of_computeOnly (f : Nat) (h : computeOnly f = true) :
    supportsCompute f = true := by
  simp only [computeOnly, Bool.and_eq_true] at h
  exact h.1

/-! ## The two passes are first-match searches -/

theorem findComputeNoGraphics_eq_findIdx (qf : List Nat) (i : Nat) :
    findComputeNoGraphics qf i = qf.findIdx? computeOnly i := by
  induction qf generalizing i with
  | nil => rfl
  | cons f rest ih =>
    simp only [findComputeNoGraphics, List.findIdx?_cons, noGraphicsCond_eq, ih]

theorem findComputeAny_eq_findIdx (qf : List Nat) (i : Nat) :
    findComputeAny qf i = qf.findIdx? supportsCompute i := by
  induction qf generalizing i with
  | nil => rfl
  | cons f rest ih =>
    simp only [findComputeAny, List.findIdx?_cons, anyCond_eq, ih]

theorem find_queue_families_eq (qf : List Nat) :
    find_queue_families qf =
      match qf.findIdx? computeOnly with
      | some i => some i
      | none => qf.findIdx? supportsCompute := by
  simp only [find_queue_families, findComputeNoGraphics_eq_findIdx,
    findComputeAny_eq_findIdx]

theorem is_device_suitable_iff (d : List Nat) :
    is_device_suitable d = true ↔ ∃ f ∈ d, supportsCompute f = true := by
  rw [is_device_suitable, is_complete, find_queue_families_eq]
  cases hco : d.findIdx? computeOnly with
  | some i =>
    simp only [Option.isSome_some, true_iff]
    obtain ⟨hlt, hpi, -⟩ := List.findIdx?_eq_some_iff_getElem.mp hco
    exact ⟨d.get ⟨i, hlt⟩, List.get_mem d i hlt,
      supportsCompute_of_computeOnly _ hpi⟩
  | none =>
    rw [List.findIdx?_isSome]
    simp [List.any_eq_true]

/-- C1: `find_queue_families` returns the (first) index of a queue
family that supports compute and not graphics when one exists;
otherwise the first index of a compute-capable family; otherwise no
index.  `pick_physical_device` picks the first enumerated device whose
queue families yield a complete result, with no ranking: every earlier
device is unsuitable. -/
theorem claim_C1 (qf : List Nat) (devices : List (List Nat)) :
    ((∃ f ∈ qf, computeOnly f = true) →
      ∃ j, find_queue_families qf = some j ∧
        ∃ hj : j < qf.length, computeOnly (qf.get ⟨j, hj⟩) = true ∧
          ∀ k (hk : k < j), computeOnly (qf.get ⟨k, Nat.lt_trans hk hj⟩) = false) ∧
    ((¬ ∃ f ∈ qf, computeOnly f = true) → (∃ f ∈ qf, supportsCompute f = true) →
      ∃ j, find_queue_families qf = some j ∧
        ∃ hj : j < qf.length, supportsCompute (qf.get ⟨j, hj⟩) = true ∧
          ∀ k (hk : k < j), supportsCompute (qf.get ⟨k, Nat.lt_trans hk hj⟩) = false) ∧
    ((¬ ∃ f ∈ qf, supportsCompute f = true) → find_queue_families qf = none) ∧
    (∀ i, pick_physical_device devices = Except.ok i →
      ∃ hi : i < devices.length,
        is_device_suitable (devices.get ⟨i, hi⟩) = true ∧
        ∀ k (hk : k < i),
          is_device_suitable (devices.get ⟨k, Nat.lt_trans hk hi⟩) = false) := by
  refine ⟨?_, ?_, ?_, ?_⟩
  · intro hex
    rcases hex with ⟨f, hf, hcf⟩
    have hj := List.findIdx?_eq_some_of_exists (p := computeOnly) ⟨f, hf, hcf⟩
    obtain ⟨hlt, hpj, hprev⟩ := List.findIdx?_eq_some_iff_getElem.mp hj
    refine ⟨_, ?_, hlt, hpj, ?_⟩
    · rw [find_queue_families_eq, hj]
    · intro k hk
      simpa using hprev k hk
  · intro hno hex
    have hnone : qf.findIdx? computeOnly = none := by
      rw [List.findIdx?_eq_none_iff]
      intro x hx
      by_contra hc
      exact hno ⟨x, hx, by simpa using hc⟩
    rcases hex with ⟨f, hf, hcf⟩
    have hj := List.findIdx?_eq_some_of_exists (p := supportsCompute) ⟨f, hf, hcf⟩
    obtain ⟨hlt, hpj, hprev⟩ := List.findIdx?_eq_some_iff_getElem.mp hj
    refine ⟨_, ?_, hlt, hpj, ?_⟩
    · rw [find_queue_families_eq, hnone, hj]
    · intro k hk
      simpa using hprev k hk
  · intro hno
    have h1 : qf.findIdx? supportsCompute = none := by
      rw [List.findIdx?_eq_none_iff]
      intro x hx
      by_contra hc
      exact hno ⟨x, hx, by simpa using hc⟩
    have h2 : qf.findIdx? computeOnly = none := by
      rw [List.findIdx?_eq_none_iff]
      intro x hx
      by_contra hc
      exact hno ⟨x, hx, supportsCompute_of_computeOnly x (by simpa using hc)⟩
    rw [find_queue_families_eq, h2, h1]
  · intro i hpick
    unfold pick_physical_device at hpick
    split at hpick
    · simp at hpick
    · split at hpick
      case _ j heq =>
        obtain rfl : j = i := by injection hpick
        obtain ⟨hlt, hpi, hprev⟩ := List.findIdx?_eq_some_iff_getElem.mp heq
        refine ⟨hlt, hpi, ?_⟩
        intro k hk
        simpa using hprev k hk
      case _ heq =>
        simp at hpick

theorem claim_C1_witness :
    ((∃ f ∈ ([3, 2] : List Nat), computeOnly f = true) ∧
      ∃ j, find_queue_families [3, 2] = some j ∧
        ∃ hj : j < ([3, 2] : List Nat).length,
          computeOnly (([3, 2] : List Nat).get ⟨j, hj⟩) = true ∧
          ∀ k (hk : k < j),
            computeOnly (([3, 2] : List Nat).get ⟨k, Nat.lt_trans hk hj⟩) = false) ∧
    ((¬ ∃ f ∈ ([1] : List Nat), supportsCompute f = true) ∧
      find_queue_families [1] = none) ∧
    (pick_physical_device [[3], [2]] = Except.ok 0 ∧
      ∃ hi : 0 < ([[3], [2]] : List (List Nat)).length,
        is_device_suitable (([[3], [2]] : List (List Nat)).get ⟨0, hi⟩) = true ∧
        ∀ k (hk : k < 0),
          is_device_suitable
            (([[3], [2]] : List (List Nat)).get ⟨k, Nat.lt_trans hk hi⟩) = false) :=
  ⟨⟨by decide, (claim_C1 [3, 2] [[3], [2]]).1 (by decide)⟩,
   ⟨by decide, (claim_C1 [1] [[3], [2]]).2.2.1 (by decide)⟩,
   ⟨rfl, (claim_C1 [3, 2] [[3], [2]]).2.2.2 0 rfl⟩⟩

/-- C7: when no enumerated accelerator has a compute-capable queue
family (including when none is enumerated), `pick_physical_device`
fails with an assertion error and the constructor trace contains no
logical-device creation; and whenever selection succeeds, the chosen
device has a compute-capable queue family. -/
theorem claim_C7 (devices : List (List Nat)) :
    ((¬ ∃ d ∈ devices, ∃ f ∈ d, supportsCompute f = true) →
      (∃ e, pick_physical_device devices = Except.error e) ∧
      (managed_vulkan_device_init devices).2.isSome = true ∧
      ((managed_vulkan_device_init devices).1.all
        fun ev => !ev.isLogicalDeviceCreated) = true) ∧
    (∀ i, pick_physical_device devices = Except.ok i →
      ∃ hi : i < devices.length,
        ∃ f ∈ devices.get ⟨i, hi⟩, supportsCompute f = true) := by
  constructor
  · intro hno
    have hfail : ∃ e, pick_physical_device devices = Except.error e := by
      unfold pick_physical_device
      split
      · exact ⟨_, rfl⟩
      · have hnone : devices.findIdx? (fun d => is_device_suitable d) = none := by
          rw [List.findIdx?_eq_none_iff]
          intro d hd
          by_contra hc
          obtain ⟨f, hf, hsc⟩ := (is_device_suitable_iff d).mp (by simpa using hc)
          exact hno ⟨d, hd, f, hf, hsc⟩
        rw [hnone]
        exact ⟨_, rfl⟩
    obtain ⟨e, he⟩ := hfail
    refine ⟨⟨e, he⟩, ?_, ?_⟩ <;>
      simp [managed_vulkan_device_init, he, InitEvent.isLogicalDeviceCreated]
  · intro i hpick
    unfold pick_physical_device at hpick
    split at hpick
    · simp at hpick
    · split at hpick
      case _ j heq =>
        obtain rfl : j = i := by injection hpick
        obtain ⟨hlt, hpi, -⟩ := List.findIdx?_eq_some_iff_getElem.mp heq
        exact ⟨hlt, (is_device_suitable_iff _).mp (by simpa using hpi)⟩
      case _ heq =>
        simp at hpick

theorem claim_C7_witness :
    ((¬ ∃ d ∈ ([[1], [4]] : List (List Nat)), ∃ f ∈ d, supportsCompute f = true) ∧
      (∃ e, pick_physical_device [[1], [4]] = Except.error e) ∧
      (managed_vulkan_device_init [[1], [4]]).2.isSome = true ∧
      ((managed_vulkan_device_init [[1], [4]]).1.all
        fun ev => !ev.isLogicalDeviceCreated) = true) ∧
    (pick_physical_device [[2]] = Except.ok 0 ∧
      ∃ hi : 0 < ([[2]] : List (List Nat)).length,
        ∃ f ∈ ([[2]] : List (List Nat)).get ⟨0, hi⟩, supportsCompute f = true) :=
  ⟨⟨by decide, (claim_C7 [[1], [4]]).1 (by decide)⟩,
   ⟨rfl, (claim_C7 [[2]]).2 0 rfl⟩⟩

/-- C5: for a pipeline built from N binding descriptors the descriptor
pool is created with storage-buffer capacity exactly N and at most one
set; exactly one descriptor set is allocated; and the i-th write puts
the i-th descriptor's buffer handle at its declared slot number with
offset 0 and whole-buffer range. -/
theorem claim_C5 (set_handle : Nat) (bindings : List BufferBinding) :
    create_descriptor_pool bindings =
      { maxSets := 1
        poolSizes := [{ type := VK_DESCRIPTOR_TYPE_STORAGE_BUFFER
                        descriptorCount := bindings.length }] } ∧
    (create_descriptor_sets set_handle bindings).descriptorSetCount = 1 ∧
    (create_descriptor_sets set_handle bindings).writes.length = bindings.length ∧
    ∀ (i : Nat) (bb : BufferBinding), bindings[i]? = some bb →
      (create_descriptor_sets set_handle bindings).writes[i]? =
        some { dstSet := set_handle
               dstBinding := bb.binding
               dstArrayElement := 0
               descriptorCount := 1
               descriptorType := VK_DESCRIPTOR_TYPE_STORAGE_BUFFER
               bufferInfo := { buffer := bb.buffer, offset := 0,
                               range := VK_WHOLE_SIZE } } := by
  refine ⟨rfl, rfl, by simp [create_descriptor_sets], ?_⟩
  intro i bb hbb
  simp [create_descriptor_sets, List.getElem?_map, hbb]

theorem claim_C5_witness :
    (([{ binding := 5, buffer := 77 }] : List BufferBinding)[0]? =
      some { binding := 5, buffer := 77 }) ∧
    (create_descriptor_sets 9 [{ binding := 5, buffer := 77 }]).writes[0]? =
      some { dstSet := 9
             dstBinding := 5
             dstArrayElement := 0
             descriptorCount := 1
             descriptorType := VK_DESCRIPTOR_TYPE_STORAGE_BUFFER
             bufferInfo := { buffer := 77, offset := 0, range := VK_WHOLE_SIZE } } :=
  ⟨rfl, (claim_C5 9 [{ binding := 5, buffer := 77 }]).2.2.2 0
    { binding := 5, buffer := 77 } rfl⟩

/-- C6 counterexample: the source enables
`VK_NV_external_memory_capabilities`, which is not in the allow-list
the spec states (portability subset, surface, swapchain, atomic
float/int64, synchronization2, variable pointers). -/
theorem claim_C6_counterexample :
    (create_logical_device
      [VK_NV_EXTERNAL_MEMORY_CAPABILITIES_EXTENSION_NAME]).enabled_extensions =
      [VK_NV_EXTERNAL_MEMORY_CAPABILITIES_EXTENSION_NAME] ∧
    VK_NV_EXTERNAL_MEMORY_CAPABILITIES_EXTENSION_NAME ∉ specAllowList := by
  exact ⟨by decide, by decide⟩

/-- C6 (amended): every device extension that gets enabled belongs to
the source's allow-list — the spec's list plus the NV
external-memory-capabilities extension — and was among the enumerated
extensions; if the variable-pointer extension is absent only a
non-fatal warning is emitted, and device creation proceeds either
way. -/
theorem claim_C6 (available : List String) :
    (∀ name ∈ (create_logical_device available).enabled_extensions,
      name ∈ codeAllowList ∧ name ∈ available) ∧
    (create_logical_device available).warned_no_variable_pointer =
      !(available.contains VK_KHR_VARIABLE_POINTERS_EXTENSION_NAME) ∧
    (create_logical_device available).device_created = true := by
  refine ⟨?_, rfl, rfl⟩
  intro name hn
  simp only [create_logical_device] at hn
  obtain ⟨hav, hen⟩ := List.mem_filter.mp hn
  refine ⟨?_, hav⟩
  simp only [extensionEnabled, decide_eq_true_eq] at hen
  rcases hen with h | h | h | h | h | h | h | h <;> subst h <;> decide

theorem claim_C6_witness :
    (VK_KHR_SWAPCHAIN_EXTENSION_NAME ∈
      (create_logical_device
        [VK_KHR_SWAPCHAIN_EXTENSION_NAME]).enabled_extensions) ∧
    (VK_KHR_SWAPCHAIN_EXTENSION_NAME ∈ codeAllowList ∧
      VK_KHR_SWAPCHAIN_EXTENSION_NAME ∈ [VK_KHR_SWAPCHAIN_EXTENSION_NAME]) :=
  ⟨by decide,
   (claim_C6 [VK_KHR_SWAPCHAIN_EXTENSION_NAME]).1
     VK_KHR_SWAPCHAIN_EXTENSION_NAME (by decide)⟩

/-- C8: the diagnostic callback always returns the "not handled" value
(`VK_FALSE`), and for every valid severity it logs the message if and
only if the severity is at or above the warning level. -/
theorem claim_C8 (sev mtype : Nat) :
    (vk_debug_callback sev mtype).returnValue = false ∧
    (sev ∈ validSeverities →
      ((vk_debug_callback sev mtype).logged = true ↔
        VK_DEBUG_UTILS_MESSAGE_SEVERITY_WARNING_BIT_EXT ≤ sev)) := by
  refine ⟨rfl, ?_⟩
  intro hs
  simp only [validSeverities, List.mem_cons, List.not_mem_nil, or_false] at hs
  rcases hs with rfl | rfl | rfl | rfl <;>
    simp [vk_debug_callback,
      VK_DEBUG_UTILS_MESSAGE_SEVERITY_VERBOSE_BIT_EXT,
      VK_DEBUG_UTILS_MESSAGE_SEVERITY_INFO_BIT_EXT,
      VK_DEBUG_UTILS_MESSAGE_SEVERITY_WARNING_BIT_EXT,
      VK_DEBUG_UTILS_MESSAGE_SEVERITY_ERROR_BIT_EXT]

theorem claim_C8_witness :
    ((256 : Nat) ∈ validSeverities) ∧
    ((vk_debug_callback 256 0).logged = true ↔
      VK_DEBUG_UTILS_MESSAGE_SEVERITY_WARNING_BIT_EXT ≤ 256) :=
  ⟨by decide, (claim_C8 256 0).2 (by decide)⟩
